import Mathlib

/-!
Verification of the fbjni/lyra exception bridge
(src/cxx/lyra/cxa_throw.cpp and src/cxx/fbjni/detail/Exceptions.cpp),
as a shallow embedding: the global trace table, the `__cxa_throw` /
`__cxa_init_primary_exception` hook bookkeeping, the C++ → Java exception
translator, and the `JniException` wrapper.
-/

set_option autoImplicit false

namespace Fbjni

/-! ## Part 1: lyra trace table (src/cxx/lyra/cxa_throw.cpp)

Exception-object identities are opaque addresses, modelled as `Nat`.
An `InstructionPointer` (one captured stack frame) is opaque, modelled
as `Nat`.  A `destructor_type` is a raw C function pointer that may be
null, modelled as `Option Nat` (`none` = null pointer). -/

abbrev Addr := Nat

abbrev InstructionPointer := Nat

abbrev DestructorPtr := Option Nat

/-- `ExceptionTraceHolder`, lyra_exceptions.h: holds the captured stack
trace of one exception (`stackTrace_ : std::vector<InstructionPointer>`). -/
structure ExceptionTraceHolder where
  stackTrace_ : List InstructionPointer
  deriving DecidableEq, Repr

/-- `ExceptionState`, cxa_throw.cpp: one entry of the global map — the
trace holder plus the exception's original destructor. -/
structure ExceptionState where
  trace : ExceptionTraceHolder
  destructor : DestructorPtr
  deriving DecidableEq, Repr

/-- The global `std::unordered_map<void*, ExceptionState>` of
cxa_throw.cpp, modelled as an association list with unique keys
(`std::unordered_map` keys are unique; `emplace` does not overwrite). -/
abbrev StateMap := List (Addr × ExceptionState)

/-- `exception_state_map->find(obj)`: first (unique) entry for a key. -/
def mapFind : StateMap → Addr → Option ExceptionState
  | [], _ => none
  | (a, s) :: rest, obj => if a = obj then some s else mapFind rest obj

/-- `exception_state_map->erase(it)`: drop the entry found for the key. -/
def mapErase : StateMap → Addr → StateMap
  | [], _ => []
  | (a, s) :: rest, obj =>
      if a = obj then rest else (a, s) :: mapErase rest obj

/-- `exception_state_map->emplace(obj, st)`: insert only when the key is
not already present (`std::unordered_map::emplace` semantics). -/
def mapEmplace (m : StateMap) (obj : Addr) (st : ExceptionState) : StateMap :=
  match mapFind m obj with
  | some _ => m
  | none => (obj, st) :: m

/-- Observable effects of one `trace_destructor` invocation, in order. -/
inductive DtorEvent where
  /-- the table entry for the object was erased (under the mutex) -/
  | erased (obj : Addr)
  /-- the original destructor was invoked on the object -/
  | calledOriginal (obj : Addr) (d : Nat)
  deriving DecidableEq, Repr

/-- `trace_destructor`, cxa_throw.cpp lines 105–125: look the object up
in the global map; a missing entry returns at once (leak, never crash);
otherwise remember the original destructor, erase the entry, and — only
if the original destructor pointer is non-null — invoke it.  Returns the
new map and the ordered list of effects. -/
def trace_destructor (m : StateMap) (exception_obj : Addr) :
    StateMap × List DtorEvent :=
  match mapFind m exception_obj with
  | none => (m, [])
  | some st =>
      let m' := mapErase m exception_obj
      match st.destructor with
      | none => (m', [.erased exception_obj])
      | some d => (m', [.erased exception_obj, .calledOriginal exception_obj d])

/-- The process-wide state of the hook: the relaxed atomic
`enableBacktraces` flag plus the global map. -/
structure GlobalState where
  enableBacktraces : Bool
  stateMap : StateMap
  deriving DecidableEq, Repr

/-- `enableCxaThrowHookBacktraces`, cxa_throw.cpp lines 48–50. -/
def enableCxaThrowHookBacktraces (g : GlobalState) (enable : Bool) :
    GlobalState :=
  { g with enableBacktraces := enable }

/-- `add_exception_trace`, cxa_throw.cpp lines 129–135: if backtraces
are enabled, emplace a fresh `ExceptionState` for the object.  The
`ExceptionTraceHolder()` constructor lives in lyra_exceptions.cpp (not
in src); its captured frames are passed in as `captured`
(Modelled from the spec: the Frame Capture Primitive produces the
ordered innermost-first frames of the current execution state). -/
def add_exception_trace (g : GlobalState) (obj : Addr)
    (captured : List InstructionPointer) (destructor : DestructorPtr) :
    GlobalState :=
  if g.enableBacktraces then
    { g with
      stateMap := mapEmplace g.stateMap obj ⟨⟨captured⟩, destructor⟩ }
  else
    g

/-- A `std::exception_ptr`, for the purpose of the trace query: the
address of the exception object it references, plus — for exceptions
thrown via `lyra::fbthrow`, which derive from `ExceptionTraceHolder`
themselves — the intrinsic holder that
`getExceptionTraceHolderInException` (cxa_throw.cpp lines 36–45) finds
by rethrow-and-catch. -/
structure ExcPtr where
  addr : Addr
  intrinsicHolder : Option ExceptionTraceHolder
  deriving DecidableEq, Repr

/-- `getExceptionTraceHolderInException`, cxa_throw.cpp lines 36–45:
rethrow and catch `const ExceptionTraceHolder&`; an exception not
derived from the holder type lands in `catch (...)` → null. -/
def getExceptionTraceHolderInException (ptr : ExcPtr) :
    Option ExceptionTraceHolder :=
  ptr.intrinsicHolder

/-- `detail::getExceptionTraceHolder`, cxa_throw.cpp lines 185–205:
look the exception object's address up in the global map; when found,
return its stored trace holder; otherwise fall back to retrieving a
holder embedded in the exception itself (fbthrow support). -/
def getExceptionTraceHolder (g : GlobalState) (ptr : ExcPtr) :
    Option ExceptionTraceHolder :=
  match mapFind g.stateMap ptr.addr with
  | some st => some st.trace
  | none => getExceptionTraceHolderInException ptr

/-- Modelled from the spec: `lyra::getExceptionTrace`
(lyra_exceptions.cpp is not in src).  The spec's Exception Trace Query
returns the previously captured trace for an in-flight exception and
degrades to an empty trace when none was recorded (§1 non-goals: "it
degrades to empty traces"). -/
def getExceptionTrace (g : GlobalState) (ptr : ExcPtr) :
    List InstructionPointer :=
  match getExceptionTraceHolder g ptr with
  | some h => h.stackTrace_
  | none => []

/-! ## Part 2: Java throwable model and the C++ → Java translator
(src/cxx/fbjni/detail/Exceptions.cpp)

A Java `StackTraceElement` carries a declaring class, a method name, a
file name and a line number (`JStackTraceElement::create`). -/

structure StackFrame where
  declaringClass : String
  methodName : String
  file : String
  line : Int
  deriving DecidableEq, Repr

/-- The Java class of a throwable built or adopted by the translator.
The named constructors are the `JavaClass` wrappers declared at the top
of Exceptions.cpp; `otherClass` stands for any other Java class an
adopted throwable may have. -/
inductive JKind where
  | runtimeException
  | illegalArgument
  | ioException
  | outOfMemory
  | arrayIndexOutOfBounds
  | unknownCpp
  | cppSystemError
  | cppException
  | otherClass (className : String)
  deriving DecidableEq, Repr

/-- The own (cause-free) data of one Java throwable: class, message,
the numeric error-code field of `CppSystemErrorException` (if any), and
the stack trace. -/
structure ThrowCell where
  kind : JKind
  msg : Option String
  code : Option Int
  stack : List StackFrame
  deriving DecidableEq, Repr

/-- A Java throwable: its own cell plus its cause chain, flattened
(`causes.head?` is the direct cause, and so on).  The cause linkage is
Java's own `Throwable.cause` field. -/
structure JThrowable where
  head : ThrowCell
  causes : List ThrowCell
  deriving DecidableEq, Repr

/-- The cells of a throwable's full cause chain, the throwable itself
first. -/
def JThrowable.cells (t : JThrowable) : List ThrowCell :=
  t.head :: t.causes

/-- Length of the cause chain including the throwable itself. -/
def JThrowable.chainLength (t : JThrowable) : Nat :=
  t.cells.length

/-- A freshly constructed Java exception: no cause set, and (this model
abstracts the frames the JVM captures at construction) an empty initial
stack trace. -/
def mkFreshThrowable (kind : JKind) (msg : Option String)
    (code : Option Int) : JThrowable :=
  ⟨⟨kind, msg, code, []⟩, []⟩

/-- `JThrowable::getStackTrace` (Exceptions.cpp lines 201–205). -/
def getStackTrace (t : JThrowable) : List StackFrame :=
  t.head.stack

/-- `JThrowable::setStackTrace` (Exceptions.cpp lines 207–211). -/
def setStackTrace (t : JThrowable) (stack : List StackFrame) : JThrowable :=
  { t with head := { t.head with stack := stack } }

/-- `JThrowable::initCause` (Exceptions.cpp lines 194–199), with Java's
`Throwable.initCause` semantics: sets the cause when none is set yet;
when a cause is already present Java throws `IllegalStateException`,
which the fbjni method wrapper surfaces as a native exception
(modelled as `Except.error`). -/
def initCause (t : JThrowable) (cause : JThrowable) :
    Except String JThrowable :=
  match t.causes with
  | [] => .ok ⟨t.head, cause.cells⟩
  | _ :: _ => .error "IllegalStateException"

/-- One frame of a lyra-symbolized native trace
(`lyra::StackTraceElement`). -/
structure StackTraceElement where
  libraryName : String
  functionName : String
  buildId : String
  libraryOffset : Int
  deriving DecidableEq, Repr

/-- Modelled from the spec: `lyra::getStackTraceSymbols` (lyra.cpp is
not in src).  The spec's Frame Capture Primitive records opaque frames;
rendering turns each captured frame into one descriptor, in order, so
symbolization is a per-frame map supplied by the platform. -/
def getStackTraceSymbols (symbolize : InstructionPointer → StackTraceElement)
    (trace : List InstructionPointer) : List StackTraceElement :=
  trace.map symbolize

/-- `createJStackTraceElement` (Exceptions.cpp lines 275–282). -/
def createJStackTraceElement (cpp : StackTraceElement) : StackFrame :=
  ⟨"|lyra|\x7b" ++ cpp.libraryName ++ "\x7d",
    cpp.functionName, cpp.buildId, cpp.libraryOffset⟩

/-- `addCppStacktraceToJavaException` (Exceptions.cpp lines 284–301):
fetch the native trace (the current stack for a null exception pointer,
the exception's captured trace otherwise), build a new array holding the
native frames first and then the existing Java frames, and install it as
the throwable's stack trace. -/
def addCppStacktraceToJavaException
    (symbolize : InstructionPointer → StackTraceElement) (g : GlobalState)
    (currentTrace : List InstructionPointer) (java : JThrowable)
    (cpp : Option ExcPtr) : JThrowable :=
  let cppTrace := match cpp with
    | none => currentTrace
    | some ptr => getExceptionTrace g ptr
  let cppStack := getStackTraceSymbols symbolize cppTrace
  let javaStack := getStackTrace java
  setStackTrace java (cppStack.map createJStackTraceElement ++ javaStack)

/-- A thrown C++ value, by its dynamic type, as distinguished by the
catch clauses of `convertCppExceptionToJavaException`:
an fbjni `JniException` (carrying its adopted Java throwable), the
standard-library types with their `what()` strings (`std::system_error`
and `std::ios_base::failure` also carry `code().value()`), any other
type derived from `std::exception`, a thrown `const char*`, or a
foreign value with an optional `std::type_info` name. -/
inductive CppExcVal where
  | jniExc (thr : JThrowable)
  | iosFailure (whatMsg : String) (code : Int)
  | invalidArgument (whatMsg : String)
  | badAlloc (whatMsg : String)
  | outOfRange (whatMsg : String)
  | systemError (whatMsg : String) (code : Int)
  | runtimeError (whatMsg : String)
  | otherStd (whatMsg : String)
  | rawString (msg : String)
  | foreign (tinfoName : Option String)
  deriving DecidableEq, Repr

/-- The `what()` string of a thrown value (`""` where `what()` does not
exist; such accesses are unreachable under catch-clause matching). -/
def CppExcVal.whatOf : CppExcVal → String
  | .jniExc _ => ""
  | .iosFailure w _ => w
  | .invalidArgument w => w
  | .badAlloc w => w
  | .outOfRange w => w
  | .systemError w _ => w
  | .runtimeError w => w
  | .otherStd w => w
  | .rawString s => s
  | .foreign _ => ""

/-- The `code().value()` of a thrown `std::system_error` (`0` where no
code exists; unreachable under catch-clause matching). -/
def CppExcVal.codeOf : CppExcVal → Int
  | .iosFailure _ c => c
  | .systemError _ c => c
  | _ => 0

/-- The catch clauses of `convertCppExceptionToJavaException`
(Exceptions.cpp lines 309–339), in source order. -/
inductive Handler where
  | hJniException
  | hIosBaseFailure
  | hInvalidArgument
  | hBadAlloc
  | hOutOfRange
  | hSystemError
  | hRuntimeError
  | hStdException
  | hCharPtr
  | hCatchAll
  deriving DecidableEq, Repr

/-- C++ catch-clause matching: whether a handler catches a thrown value,
by the standard inheritance relations — `std::ios_base::failure` derives
from `std::system_error`, which derives from `std::runtime_error`;
`std::invalid_argument` and `std::out_of_range` derive from
`std::logic_error`; all of these, `std::bad_alloc`, and fbjni's
`JniException` derive from `std::exception`; `catch (...)` catches
everything. -/
def handlerMatches : CppExcVal → Handler → Bool
  | .jniExc _, h =>
      h = .hJniException || h = .hStdException || h = .hCatchAll
  | .iosFailure _ _, h =>
      h = .hIosBaseFailure || h = .hSystemError || h = .hRuntimeError ||
      h = .hStdException || h = .hCatchAll
  | .invalidArgument _, h =>
      h = .hInvalidArgument || h = .hStdException || h = .hCatchAll
  | .badAlloc _, h =>
      h = .hBadAlloc || h = .hStdException || h = .hCatchAll
  | .outOfRange _, h =>
      h = .hOutOfRange || h = .hStdException || h = .hCatchAll
  | .systemError _ _, h =>
      h = .hSystemError || h = .hRuntimeError || h = .hStdException ||
      h = .hCatchAll
  | .runtimeError _, h =>
      h = .hRuntimeError || h = .hStdException || h = .hCatchAll
  | .otherStd _, h =>
      h = .hStdException || h = .hCatchAll
  | .rawString _, h =>
      h = .hCharPtr || h = .hCatchAll
  | .foreign _, h =>
      h = .hCatchAll

/-- The source order of the catch clauses in
`convertCppExceptionToJavaException` (Exceptions.cpp lines 309–339). -/
def handlerOrder : List Handler :=
  [.hJniException, .hIosBaseFailure, .hInvalidArgument, .hBadAlloc,
   .hOutOfRange, .hSystemError, .hRuntimeError, .hStdException,
   .hCharPtr, .hCatchAll]

/-- C++ try/catch dispatch: the first handler in source order that
matches the thrown value. -/
def firstMatch : List Handler → CppExcVal → Option Handler
  | [], _ => none
  | h :: rest, e => if handlerMatches e h then some h else firstMatch rest e

/-- The body of the catch clause a handler runs
(Exceptions.cpp lines 309–339): adopt, or build the Java exception for
the category.  The `_WIN32` branch of `catch (...)` is not modelled
(the non-Windows branch with `abi::__cxa_current_exception_type` is). -/
def applyHandler : Handler → CppExcVal → JThrowable
  | .hJniException, e =>
      match e with
      | .jniExc thr => thr
      | _ => mkFreshThrowable .unknownCpp none none
  | .hIosBaseFailure, e => mkFreshThrowable .ioException (some e.whatOf) none
  | .hInvalidArgument, e =>
      mkFreshThrowable .illegalArgument (some e.whatOf) none
  | .hBadAlloc, e => mkFreshThrowable .outOfMemory (some e.whatOf) none
  | .hOutOfRange, e =>
      mkFreshThrowable .arrayIndexOutOfBounds (some e.whatOf) none
  | .hSystemError, e =>
      mkFreshThrowable .cppSystemError (some e.whatOf) (some e.codeOf)
  | .hRuntimeError, e =>
      mkFreshThrowable .runtimeException (some e.whatOf) none
  | .hStdException, e => mkFreshThrowable .cppException (some e.whatOf) none
  | .hCharPtr, e => mkFreshThrowable .unknownCpp (some e.whatOf) none
  | .hCatchAll, e =>
      match e with
      | .foreign (some tinfoName) =>
          mkFreshThrowable .unknownCpp (some ("Unknown: " ++ tinfoName)) none
      | _ => mkFreshThrowable .unknownCpp none none

/-- The try/catch of `convertCppExceptionToJavaException`
(Exceptions.cpp lines 307–339): rethrow the exception and let the first
matching clause build (or adopt) the Java throwable.  Every value
matches `catch (...)`, so the `none` branch is unreachable. -/
def convertKernel (e : CppExcVal) : JThrowable :=
  match firstMatch handlerOrder e with
  | some h => applyHandler h e
  | none => mkFreshThrowable .unknownCpp none none

/-- `convertCppExceptionToJavaException` (Exceptions.cpp lines
303–343): dispatch on the thrown value, then merge the native trace
into the resulting throwable's stack trace. -/
def convertCppExceptionToJavaException
    (symbolize : InstructionPointer → StackTraceElement) (g : GlobalState)
    (currentTrace : List InstructionPointer) (e : CppExcVal)
    (ptr : ExcPtr) : JThrowable :=
  let current := convertKernel e
  addCppStacktraceToJavaException symbolize g currentTrace current (some ptr)

/-- A native exception together with its full `std::nested_exception`
chain is represented outermost-first: the head is the exception itself,
each later element is the next nested cause; each element carries its
own `exception_ptr` identity. -/
abbrev NativeChain := List (CppExcVal × ExcPtr)

/-- `denest` (Exceptions.cpp lines 257–269) recurses into the nested
cause before invoking `func` on the current exception, so `func` sees
the chain innermost-first: the reverse of the outermost-first
representation. -/
def denestOrder (chain : NativeChain) : NativeChain :=
  chain.reverse

/-- Whether a thrown value, when translated, yields a Java throwable
with no pre-existing cause: true for every freshly created category,
and for an adopted `JniException` exactly when its Java throwable has
no cause of its own. -/
def adoptedCauseFree : CppExcVal → Bool
  | .jniExc thr => decide (thr.causes = [])
  | _ => true

/-- The `func` lambda of `getJavaExceptionForCppException`
(Exceptions.cpp lines 363–369), applied along `denest`'s
innermost-first visitation: translate the current exception, link its
cause to the previously translated (deeper) one, and carry it along as
`previous`.  A Java exception raised by `initCause` propagates out of
the loop (`Except.error`). -/
def translateLoop (symbolize : InstructionPointer → StackTraceElement)
    (g : GlobalState) (currentTrace : List InstructionPointer) :
    NativeChain → Option JThrowable → Except String (Option JThrowable)
  | [], previous => .ok previous
  | p :: rest, previous =>
      let current :=
        convertCppExceptionToJavaException symbolize g currentTrace p.1 p.2
      match previous with
      | none => translateLoop symbolize g currentTrace rest (some current)
      | some prev =>
          match initCause current prev with
          | .ok linked => translateLoop symbolize g currentTrace rest (some linked)
          | .error e => .error e

/-- `getJavaExceptionForCppException` (Exceptions.cpp lines 360–372):
run the translating fold over the denested (innermost-first) chain,
starting from an empty `previous`; the final `previous` is returned
(`none` only for an empty chain, excluded by `FBJNI_ASSERT(ptr)`). -/
def getJavaExceptionForCppException
    (symbolize : InstructionPointer → StackTraceElement) (g : GlobalState)
    (currentTrace : List InstructionPointer) (chain : NativeChain) :
    Except String (Option JThrowable) :=
  translateLoop symbolize g currentTrace (denestOrder chain) none

/-! ## Part 3: the JNI pending-exception slot
(src/cxx/fbjni/detail/Exceptions.cpp, boundary functions) -/

/-- The observable JNI environment state: the pending-exception slot
(`ExceptionCheck` / `ExceptionOccurred` / `ExceptionClear` / `Throw`). -/
structure Env where
  pending : Option JThrowable
  deriving DecidableEq, Repr

/-- Result of a boundary call that either returns to its caller or
terminates the process. -/
inductive Outcome where
  | returned (env : Env)
  | aborted
  deriving DecidableEq, Repr

/-- `setJavaExceptionAndAbortOnFailure` (Exceptions.cpp lines 128–135):
`env->Throw(throwable)` for a non-null throwable (which, when the JNI
call succeeds — `throwSucceeds` — makes it pending), then
`FBJNI_LOGF` unless `ExceptionCheck()` reports a pending exception.
Modelled from the spec: `FBJNI_LOGF` (Log.h is not in src) terminates
the process — the spec's boundary guard "aborting the process if it
cannot" leave a pending exception. -/
def setJavaExceptionAndAbortOnFailure (env : Env)
    (throwable : Option JThrowable) (throwSucceeds : Bool) : Outcome :=
  let env1 := match throwable with
    | some t => if throwSucceeds then { pending := some t } else env
    | none => env
  if env1.pending.isSome then .returned env1 else .aborted

/-- `translatePendingCppExceptionToJavaException` (Exceptions.cpp lines
375–400): translate the current native exception (the translation
attempt is passed in: `Except.error` when it threw) and install it via
`setJavaExceptionAndAbortOnFailure`; any exception escaping the `try`
block reaches `catch (...)`, which logs and calls `std::terminate`. -/
def translatePendingCppExceptionToJavaException (env : Env)
    (translated : Except Unit JThrowable) (throwSucceeds : Bool) : Outcome :=
  match translated with
  | .error _ => .aborted
  | .ok exc => setJavaExceptionAndAbortOnFailure env (some exc) throwSucceeds

/-- The native-side state of a `JniException` wrapper
(fbjni's `JniException`, Exceptions.cpp lines 410 onward): the owned
Java throwable, the cached description, and the populated flag. -/
structure JniExceptionObj where
  throwable_ : JThrowable
  what_ : String
  isMessageExtracted_ : Bool
  deriving DecidableEq, Repr

/-- `JniException::JniException(alias_ref<jthrowable>)` (Exceptions.cpp
lines 412–415): wrap a throwable, message not yet extracted. -/
def adoptThrowable (t : JThrowable) : JniExceptionObj :=
  ⟨t, "", false⟩

/-- `JniException::JniException()` (Exceptions.cpp line 410): wraps a
fresh `JRuntimeException.create()` (a `java.lang.RuntimeException`
built with no message). -/
def defaultJniException : JniExceptionObj :=
  adoptThrowable (mkFreshThrowable .runtimeException none none)

/-- Result of a call that either returns normally or raises a C++
`JniException` (the wrapper carrying a Java throwable). -/
inductive NativeThrowOutcome where
  | normalReturn (env : Env)
  | threwJniException (exc : JniExceptionObj) (env : Env)
  deriving DecidableEq, Repr

/-- Whether the call raised a native exception (as opposed to
returning normally to its caller). -/
def NativeThrowOutcome.isThrow : NativeThrowOutcome → Bool
  | .normalReturn _ => false
  | .threwJniException _ _ => true

/-- `throwPendingJniExceptionAsCppException` (Exceptions.cpp lines
148–161): `ExceptionCheck() == JNI_FALSE` returns at once; otherwise
the pending throwable is fetched via `ExceptionOccurred`, the slot is
cleared, and a `JniException` adopting the throwable is thrown.  (The
`throw std::runtime_error` branch for a null `ExceptionOccurred` result
despite a positive check is unreachable in this model, where the two
calls read the same slot.) -/
def throwPendingJniExceptionAsCppException (env : Env) :
    NativeThrowOutcome :=
  match env.pending with
  | none => .normalReturn env
  | some t => .threwJniException (adoptThrowable t) ⟨none⟩

/-- `throwCppExceptionIf` (Exceptions.cpp lines 163–175): on a true
condition, rethrow the pending Java exception when one exists, else
throw a default `JniException`. -/
def throwCppExceptionIf (condition : Bool) (env : Env) :
    NativeThrowOutcome :=
  if condition then
    match env.pending with
    | some _ => throwPendingJniExceptionAsCppException env
    | none => .threwJniException defaultJniException env
  else
    .normalReturn env

/-! ## Part 4: `JniException::populateWhat` / `what`
(src/cxx/fbjni/detail/Exceptions.cpp lines 561–641)

The managed-runtime collaborators (the `ExceptionHelper`
`getErrorDescription` static method, `Throwable.toString`, and the
experimental raw-JNI `jni_message` round trip) are modelled as an
oracle recording outcomes and invocation counts. -/

/-- `kExceptionMessageFailure` (Exceptions.cpp lines 406–407). -/
def kExceptionMessageFailure : String :=
  "Unable to get exception message."

/-- Build-time constant (Exceptions.cpp lines 544–549): false unless
`JNI_EXCEPTION_POPULATE_INTERNAL_EXPERIMENTING_JNI` is defined; the
default configuration is modelled. -/
def kUseJniMessageCode : Bool := false

/-- Build-time constant (Exceptions.cpp lines 551–556): false unless
`JNI_EXCEPTION_POPULATE_INTERNAL_EXPERIMENTING` is defined; the default
configuration is modelled. -/
def kExceptionMessageWithClassLoader : Bool := false

/-- Outcome of one call into the managed runtime: success, a failure
caught as `const std::exception&` (carrying its possibly-null `what()`
C string), or a failure caught only by `catch (...)`. -/
inductive CallOutcome where
  | ok (s : String)
  | threwStd (whatMsg : Option String)
  | threwOther
  deriving DecidableEq, Repr

/-- The managed-runtime collaborator as seen by `populateWhat`: fixed
per-call outcomes plus invocation counters (the call-counting stub of
the spec's caching scenario). -/
structure HelperWorld where
  jniMessageResult : Option String
  getErrorDescriptionResult : CallOutcome
  toStringResult : Option String
  jniMessageCalls : Nat
  getErrorDescriptionCalls : Nat
  toStringCalls : Nat
  deriving DecidableEq, Repr

/-- The `catch` cascade around `getErrorDescription` (Exceptions.cpp
lines 603–633): on success cache the description and set the flag; on a
`std::exception` failure fall back to `throwable_->toString()` with the
failure message appended; on any other failure fall back to plain
`toString()`; when `toString` itself throws, store
`kExceptionMessageFailure` without setting the flag. -/
def populateWhatMain (w : HelperWorld) (st : JniExceptionObj) :
    JniExceptionObj × HelperWorld :=
  let w1 := { w with getErrorDescriptionCalls := w.getErrorDescriptionCalls + 1 }
  match w1.getErrorDescriptionResult with
  | .ok s => ({ st with what_ := s, isMessageExtracted_ := true }, w1)
  | .threwStd whatMsg =>
      let w2 := { w1 with toStringCalls := w1.toStringCalls + 1 }
      match w2.toStringResult with
      | some s =>
          let full := match whatMsg with
            | some m => s ++ " (stack trace extraction failure: " ++ m ++ ")"
            | none => s
          ({ st with what_ := full, isMessageExtracted_ := true }, w2)
      | none => ({ st with what_ := kExceptionMessageFailure }, w2)
  | .threwOther =>
      let w2 := { w1 with toStringCalls := w1.toStringCalls + 1 }
      match w2.toStringResult with
      | some s => ({ st with what_ := s, isMessageExtracted_ := true }, w2)
      | none => ({ st with what_ := kExceptionMessageFailure }, w2)

/-- `JniException::populateWhat` (Exceptions.cpp lines 561–634): the
experimental raw-JNI path when `kUseJniMessageCode` is set; the
class-loader-scoped experimental helper call (falling through to the
main path on failure) when `kExceptionMessageWithClassLoader` is set;
otherwise the main `getErrorDescription` cascade. -/
def populateWhat (w : HelperWorld) (st : JniExceptionObj) :
    JniExceptionObj × HelperWorld :=
  if kUseJniMessageCode then
    let w1 := { w with jniMessageCalls := w.jniMessageCalls + 1 }
    match w1.jniMessageResult with
    | some m => ({ st with what_ := m, isMessageExtracted_ := true }, w1)
    | none =>
        let w2 := { w1 with toStringCalls := w1.toStringCalls + 1 }
        match w2.toStringResult with
        | some s =>
            let st' := { st with
              what_ := s ++ " (stack trace extraction failure)"
              isMessageExtracted_ := true }
            (st', w2)
        | none => ({ st with what_ := kExceptionMessageFailure }, w2)
  else if kExceptionMessageWithClassLoader then
    let w1 :=
      { w with getErrorDescriptionCalls := w.getErrorDescriptionCalls + 1 }
    match w1.getErrorDescriptionResult with
    | .ok s =>
        let st' := { st with
          what_ := "Experimenting: " ++ s
          isMessageExtracted_ := true }
        (st', w1)
    | _ => populateWhatMain w1 st
  else
    populateWhatMain w st

/-- `JniException::what` (Exceptions.cpp lines 636–641): populate the
cache unless the message was already extracted, then return the cached
string. -/
def jniExceptionWhat (w : HelperWorld) (st : JniExceptionObj) :
    JniExceptionObj × HelperWorld × String :=
  if st.isMessageExtracted_ then
    (st, w, st.what_)
  else
    ((populateWhat w st).1, (populateWhat w st).2, (populateWhat w st).1.what_)

/-! ## Theorems -/

/-- C1: `convertCppExceptionToJavaException` tests the ten catch
clauses in the stated precedence order and stops at the first match:
an adopted `JniException` is unwrapped to its original throwable (no
double-wrapping, only the trace merge applied); `std::ios_base::failure`
→ `IOException` with `what()`; `std::invalid_argument` →
`IllegalArgumentException`; `std::bad_alloc` → `OutOfMemoryError`;
`std::out_of_range` → `ArrayIndexOutOfBoundsException`;
`std::system_error` → `CppSystemErrorException` carrying message and
numeric code; `std::runtime_error` → `RuntimeException`; any other
`std::exception` → `CppException` with `what()`; a thrown `const char*`
→ `UnknownCppException` with that string; anything else →
`UnknownCppException`, annotated with the runtime type name when
`abi::__cxa_current_exception_type` exposes one. -/
theorem convertCppException_category_mapping
    (symbolize : InstructionPointer → StackTraceElement) (g : GlobalState)
    (currentTrace : List InstructionPointer) (ptr : ExcPtr) :
    (∀ e, convertCppExceptionToJavaException symbolize g currentTrace e ptr
        = addCppStacktraceToJavaException symbolize g currentTrace
            (convertKernel e) (some ptr)) ∧
    (∀ thr, convertKernel (.jniExc thr) = thr) ∧
    (∀ w c, convertKernel (.iosFailure w c)
        = mkFreshThrowable .ioException (some w) none) ∧
    (∀ w, convertKernel (.invalidArgument w)
        = mkFreshThrowable .illegalArgument (some w) none) ∧
    (∀ w, convertKernel (.badAlloc w)
        = mkFreshThrowable .outOfMemory (some w) none) ∧
    (∀ w, convertKernel (.outOfRange w)
        = mkFreshThrowable .arrayIndexOutOfBounds (some w) none) ∧
    (∀ w c, convertKernel (.systemError w c)
        = mkFreshThrowable .cppSystemError (some w) (some c)) ∧
    (∀ w, convertKernel (.runtimeError w)
        = mkFreshThrowable .runtimeException (some w) none) ∧
    (∀ w, convertKernel (.otherStd w)
        = mkFreshThrowable .cppException (some w) none) ∧
    (∀ s, convertKernel (.rawString s)
        = mkFreshThrowable .unknownCpp (some s) none) ∧
    (∀ n, convertKernel (.foreign (some n))
        = mkFreshThrowable .unknownCpp (some ("Unknown: " ++ n)) none) ∧
    convertKernel (.foreign none) = mkFreshThrowable .unknownCpp none none := by
  refine ⟨?_, ?_, ?_, ?_, ?_, ?_, ?_, ?_, ?_, ?_, ?_, ?_⟩ <;> intros <;> rfl

/-- C6: `translatePendingCppExceptionToJavaException` either terminates
the process or returns with a managed exception pending: a translation
failure reaches `catch (...)` and `std::terminate`; otherwise
`setJavaExceptionAndAbortOnFailure` aborts unless `ExceptionCheck`
confirms a pending exception on the way out. -/
theorem translatePending_leaves_pending (env : Env)
    (translated : Except Unit JThrowable) (throwSucceeds : Bool) :
    translatePendingCppExceptionToJavaException env (.error ()) throwSucceeds
      = .aborted ∧
    (translatePendingCppExceptionToJavaException env translated throwSucceeds
        = .aborted ∨
      ∃ env', translatePendingCppExceptionToJavaException env translated
            throwSucceeds = .returned env' ∧ env'.pending.isSome = true) := by
  refine ⟨rfl, ?_⟩
  match translated with
  | .error () => exact .inl rfl
  | .ok exc =>
      cases hts : throwSucceeds
      · cases hp : env.pending with
        | none =>
            left
            simp [translatePendingCppExceptionToJavaException,
              setJavaExceptionAndAbortOnFailure, hp]
        | some t =>
            right
            exact ⟨env, by
              simp [translatePendingCppExceptionToJavaException,
                setJavaExceptionAndAbortOnFailure, hp], by simp [hp]⟩
      · right
        exact ⟨⟨some exc⟩, by
          simp [translatePendingCppExceptionToJavaException,
            setJavaExceptionAndAbortOnFailure], rfl⟩

/-- C8 counterexample: with no managed exception pending,
`throwPendingJniExceptionAsCppException` returns normally — it does not
raise a generic native failure (contrary to the claim). -/
theorem throwPendingJniException_no_pending_cex :
    throwPendingJniExceptionAsCppException ⟨none⟩ = .normalReturn ⟨none⟩ ∧
    (throwPendingJniExceptionAsCppException ⟨none⟩).isThrow = false :=
  ⟨rfl, rfl⟩

/-- C8 amended: with a managed exception pending,
`throwPendingJniExceptionAsCppException` clears the pending slot and
raises the exception wrapped in a `JniException`; with none pending it
returns normally without raising anything — the generic-failure branch
belongs to `throwCppExceptionIf(true)`, which throws a default
`JniException` when no exception is pending. -/
theorem throwPendingJniException_amended :
    (∀ t, throwPendingJniExceptionAsCppException ⟨some t⟩
        = .threwJniException (adoptThrowable t) ⟨none⟩) ∧
    throwPendingJniExceptionAsCppException ⟨none⟩ = .normalReturn ⟨none⟩ ∧
    throwCppExceptionIf true ⟨none⟩
      = .threwJniException defaultJniException ⟨none⟩ :=
  ⟨fun _ => rfl, rfl, rfl⟩

/-- C10: a wrapped-destructor invocation whose recorded original
destructor is the null pointer still erases the table entry and then
returns without invoking any destructor, and an invocation for an
object with no table entry leaves the table unchanged. -/
theorem trace_destructor_null_and_missing (m : StateMap) (obj : Addr) :
    (∀ st, mapFind m obj = some st → st.destructor = none →
        trace_destructor m obj = (mapErase m obj, [.erased obj]) ∧
        ∀ x d, DtorEvent.calledOriginal x d ∉ (trace_destructor m obj).2) ∧
    (mapFind m obj = none → trace_destructor m obj = (m, [])) := by
  constructor
  · intro st hfind hdtor
    constructor
    · simp [trace_destructor, hfind, hdtor]
    · intro x d
      simp [trace_destructor, hfind, hdtor]
  · intro hfind
    simp [trace_destructor, hfind]

/-- C10 witness: an entry with a null original destructor is erased
with no destructor call, and a missing entry leaves the table as it
was. -/
theorem trace_destructor_null_and_missing_witness :
    trace_destructor [(4, ⟨⟨[2]⟩, none⟩)] 4 = ([], [.erased 4]) ∧
    trace_destructor [] 9 = ([], []) := by
  have h1 := (trace_destructor_null_and_missing [(4, ⟨⟨[2]⟩, none⟩)] 4).1
    ⟨⟨[2]⟩, none⟩ rfl rfl
  have h2 := (trace_destructor_null_and_missing [] 9).2 rfl
  exact ⟨h1.1, h2⟩

/-- Helper: a key not among a map's keys is not found. -/
theorem mapFind_eq_none (m : StateMap) (obj : Addr)
    (h : obj ∉ m.map Prod.fst) : mapFind m obj = none := by
  induction m with
  | nil => rfl
  | cons p rest ih =>
      obtain ⟨a, s⟩ := p
      simp only [List.map_cons, List.mem_cons, not_or] at h
      have ha : ¬a = obj := fun e => h.1 e.symm
      simp [mapFind, ha, ih h.2]

/-- Helper: on a map with unique keys, erasing a key makes it
unfindable. -/
theorem mapFind_mapErase_self (m : StateMap) (obj : Addr)
    (hnd : (m.map Prod.fst).Nodup) : mapFind (mapErase m obj) obj = none := by
  induction m with
  | nil => rfl
  | cons p rest ih =>
      obtain ⟨a, s⟩ := p
      simp only [List.map_cons, List.nodup_cons] at hnd
      by_cases hao : a = obj
      · subst hao
        simp [mapErase, mapFind_eq_none rest a hnd.1]
      · simp [mapErase, mapFind, hao, ih hnd.2]

/-- C3: the wrapped destructor first erases the object's table entry
and only afterwards calls the original destructor (the event list is
ordered erase-then-call); a missing entry returns without error and
without effect; afterwards the table holds no record for the object,
and a second invocation does nothing — each record is destroyed exactly
once. -/
theorem trace_destructor_contract (m : StateMap) (obj : Addr)
    (hnd : (m.map Prod.fst).Nodup) :
    (∀ st, mapFind m obj = some st →
        trace_destructor m obj =
          (mapErase m obj,
            DtorEvent.erased obj ::
              (match st.destructor with
               | some d => [DtorEvent.calledOriginal obj d]
               | none => []))) ∧
    (mapFind m obj = none → trace_destructor m obj = (m, [])) ∧
    mapFind (trace_destructor m obj).1 obj = none ∧
    trace_destructor (trace_destructor m obj).1 obj
      = ((trace_destructor m obj).1, []) := by
  have herase := mapFind_mapErase_self m obj hnd
  have hmiss : ∀ m' : StateMap, mapFind m' obj = none →
      trace_destructor m' obj = (m', []) := by
    intro m' h
    simp [trace_destructor, h]
  have hfst : mapFind (trace_destructor m obj).1 obj = none := by
    cases hfind : mapFind m obj with
    | none => simp [trace_destructor, hfind]
    | some st =>
        cases hd : st.destructor <;>
          simpa [trace_destructor, hfind, hd] using herase
  refine ⟨?_, hmiss m, hfst, hmiss _ hfst⟩
  intro st hfind
  cases hd : st.destructor <;> simp [trace_destructor, hfind, hd]

/-- C3 witness: destroying a recorded exception object erases its entry
first and then calls its original destructor, leaving no entry behind. -/
theorem trace_destructor_contract_witness :
    trace_destructor [(1, ⟨⟨[3]⟩, some 9⟩)] 1
      = ([], [.erased 1, .calledOriginal 1 9]) ∧
    mapFind (trace_destructor [(1, ⟨⟨[3]⟩, some 9⟩)] 1).1 1 = none := by
  have h := trace_destructor_contract [(1, ⟨⟨[3]⟩, some 9⟩)] 1 (by decide)
  exact ⟨h.1 ⟨⟨[3]⟩, some 9⟩ rfl, h.2.2.1⟩

/-- Helper: re-installing a throwable's own stack trace changes
nothing. -/
theorem setStackTrace_self (t : JThrowable) :
    setStackTrace t (getStackTrace t) = t := rfl

/-- C4: `addCppStacktraceToJavaException` replaces the managed stack
trace by the native frames (rendered in captured order) followed by the
previously captured managed frames in their original order; the new
length is the sum of the two counts; and when the trace query finds no
record for the exception, the resulting managed trace is extensionally
the one already present — the merge degrades to the identity, never an
error. -/
theorem addCppStacktrace_merge
    (symbolize : InstructionPointer → StackTraceElement) (g : GlobalState)
    (currentTrace : List InstructionPointer) (java : JThrowable)
    (ptr : ExcPtr) :
    addCppStacktraceToJavaException symbolize g currentTrace java (some ptr)
      = setStackTrace java
          ((getStackTraceSymbols symbolize (getExceptionTrace g ptr)).map
              createJStackTraceElement ++ getStackTrace java) ∧
    (getStackTrace
        (addCppStacktraceToJavaException symbolize g currentTrace java
          (some ptr))).length
      = (getExceptionTrace g ptr).length + (getStackTrace java).length ∧
    (getExceptionTraceHolder g ptr = none →
      addCppStacktraceToJavaException symbolize g currentTrace java (some ptr)
        = java) := by
  refine ⟨rfl, ?_, ?_⟩
  · simp [addCppStacktraceToJavaException, getStackTraceSymbols,
      getStackTrace, setStackTrace]
  · intro h
    simp only [addCppStacktraceToJavaException, getExceptionTrace, h,
      getStackTraceSymbols, List.map_nil, List.nil_append]
    exact setStackTrace_self java

/-- C4 witness: with an empty trace table and no intrinsic holder, the
lookup misses and the merge leaves the throwable unchanged. -/
theorem addCppStacktrace_merge_witness :
    getExceptionTraceHolder ⟨true, []⟩ ⟨0, none⟩ = none ∧
    addCppStacktraceToJavaException (fun _ => ⟨"", "", "", 0⟩) ⟨true, []⟩ []
        (mkFreshThrowable .runtimeException none none) (some ⟨0, none⟩)
      = mkFreshThrowable .runtimeException none none :=
  ⟨rfl,
    (addCppStacktrace_merge (fun _ => ⟨"", "", "", 0⟩) ⟨true, []⟩ []
      (mkFreshThrowable .runtimeException none none) ⟨0, none⟩).2.2 rfl⟩

/-- C5 counterexample: with capture disabled the hook inserts no entry,
yet the lookup for an fbthrow-style exception that itself derives from
`ExceptionTraceHolder` returns that intrinsic non-empty trace, not an
empty result as the claim states. -/
theorem cxaHookDisabled_fbthrow_cex :
    add_exception_trace ⟨false, []⟩ 7 [1, 2] (some 3) = ⟨false, []⟩ ∧
    getExceptionTraceHolder ⟨false, []⟩ ⟨7, some ⟨[9]⟩⟩ = some ⟨[9]⟩ ∧
    getExceptionTrace ⟨false, []⟩ ⟨7, some ⟨[9]⟩⟩ = [9] ∧
    ([9] : List InstructionPointer) ≠ [] :=
  ⟨rfl, rfl, rfl, by decide⟩

/-- C5 amended: for a freshly constructed exception object (no existing
table entry): when capture is enabled at construction the hook records
the captured trace and the lookup returns exactly it (non-empty when
the capture is); when capture is disabled the hook inserts no table
entry, and the lookup returns an empty result provided the exception
does not itself carry an intrinsic `ExceptionTraceHolder` — the fbthrow
fallback returns an exception's own holder even when the hook is
disabled. -/
theorem cxaHook_capture_lookup (g : GlobalState) (obj : Addr)
    (captured : List InstructionPointer) (dtor : DestructorPtr)
    (ptr : ExcPtr) (haddr : ptr.addr = obj)
    (hfresh : mapFind g.stateMap obj = none) :
    (g.enableBacktraces = true →
        getExceptionTraceHolder (add_exception_trace g obj captured dtor) ptr
          = some ⟨captured⟩ ∧
        getExceptionTrace (add_exception_trace g obj captured dtor) ptr
          = captured) ∧
    (g.enableBacktraces = false →
        add_exception_trace g obj captured dtor = g ∧
        (ptr.intrinsicHolder = none →
          getExceptionTraceHolder g ptr = none ∧
          getExceptionTrace g ptr = [])) := by
  constructor
  · intro hen
    have hh : getExceptionTraceHolder (add_exception_trace g obj captured dtor)
        ptr = some ⟨captured⟩ := by
      simp [add_exception_trace, hen, mapEmplace, hfresh,
        getExceptionTraceHolder, mapFind, haddr]
    exact ⟨hh, by simp [getExceptionTrace, hh]⟩
  · intro hen
    have hg : add_exception_trace g obj captured dtor = g := by
      simp [add_exception_trace, hen]
    refine ⟨hg, ?_⟩
    intro hint
    have hh : getExceptionTraceHolder g ptr = none := by
      simp [getExceptionTraceHolder, haddr, hfresh,
        getExceptionTraceHolderInException, hint]
    exact ⟨hh, by simp [getExceptionTrace, hh]⟩

/-- C5 witness: with capture enabled the recorded trace is returned;
with capture disabled (and no intrinsic holder) the table stays empty
and the lookup misses. -/
theorem cxaHook_capture_lookup_witness :
    getExceptionTrace (add_exception_trace ⟨true, []⟩ 5 [1, 2] (some 3))
        ⟨5, none⟩ = [1, 2] ∧
    add_exception_trace ⟨false, []⟩ 5 [1, 2] (some 3) = ⟨false, []⟩ ∧
    getExceptionTraceHolder ⟨false, []⟩ ⟨5, none⟩ = none := by
  have h1 := cxaHook_capture_lookup ⟨true, []⟩ 5 [1, 2] (some 3) ⟨5, none⟩
    rfl rfl
  have h2 := cxaHook_capture_lookup ⟨false, []⟩ 5 [1, 2] (some 3) ⟨5, none⟩
    rfl rfl
  exact ⟨(h1.1 rfl).2, (h2.2 rfl).1, ((h2.2 rfl).2 rfl).1⟩

/-- C7: once a `what()` call has succeeded in extracting a message
(the populated flag is set), a second call returns the same cached
string, leaves the wrapper state unchanged, and performs no further
call into the managed runtime (the collaborator's call counters are
untouched). -/
theorem jniExceptionWhat_cached (w : HelperWorld) (st : JniExceptionObj)
    (h : (jniExceptionWhat w st).1.isMessageExtracted_ = true) :
    jniExceptionWhat (jniExceptionWhat w st).2.1 (jniExceptionWhat w st).1
      = jniExceptionWhat w st := by
  by_cases hb : st.isMessageExtracted_
  · simp [jniExceptionWhat, hb]
  · simp only [jniExceptionWhat, hb, Bool.false_eq_true, if_false] at h ⊢
    simp [h]

/-- C7 witness: adopting a throwable and calling `what()` twice with a
successful description extraction: the second call changes nothing. -/
theorem jniExceptionWhat_cached_witness :
    jniExceptionWhat
        (jniExceptionWhat ⟨none, .ok "boom", some "ts", 0, 0, 0⟩
          (adoptThrowable (mkFreshThrowable .runtimeException none none))).2.1
        (jniExceptionWhat ⟨none, .ok "boom", some "ts", 0, 0, 0⟩
          (adoptThrowable (mkFreshThrowable .runtimeException none none))).1
      = jniExceptionWhat ⟨none, .ok "boom", some "ts", 0, 0, 0⟩
          (adoptThrowable (mkFreshThrowable .runtimeException none none)) :=
  jniExceptionWhat_cached _ _ rfl

/-- C9: when the helper call fails and the `toString` fallback also
fails, `populateWhat` stores the fixed literal
`kExceptionMessageFailure` but leaves the extracted flag unset, so the
failure is not cached: the next `what()` call re-runs the extraction
(the helper is invoked again) instead of returning the stored
literal. -/
theorem populateWhat_failure_not_cached (w : HelperWorld)
    (st : JniExceptionObj) (hst : st.isMessageExtracted_ = false)
    (hged : ∀ s, w.getErrorDescriptionResult ≠ .ok s)
    (hts : w.toStringResult = none) :
    (populateWhat w st).1.what_ = kExceptionMessageFailure ∧
    (populateWhat w st).1.isMessageExtracted_ = false ∧
    (jniExceptionWhat (populateWhat w st).2
          (populateWhat w st).1).2.1.getErrorDescriptionCalls
      = (populateWhat w st).2.getErrorDescriptionCalls + 1 := by
  cases hr : w.getErrorDescriptionResult with
  | ok s => exact absurd hr (hged s)
  | threwStd m =>
      refine ⟨?_, ?_, ?_⟩ <;>
        simp [populateWhat, kUseJniMessageCode,
          kExceptionMessageWithClassLoader, populateWhatMain, hr, hts, hst,
          jniExceptionWhat]
  | threwOther =>
      refine ⟨?_, ?_, ?_⟩ <;>
        simp [populateWhat, kUseJniMessageCode,
          kExceptionMessageWithClassLoader, populateWhatMain, hr, hts, hst,
          jniExceptionWhat]

/-- C9 witness: with every tier failing, the literal is stored, the
flag stays unset, and the next `what()` calls the helper again. -/
theorem populateWhat_failure_not_cached_witness :
    (populateWhat ⟨none, .threwOther, none, 0, 0, 0⟩
        (adoptThrowable (mkFreshThrowable .runtimeException none
          none))).1.what_ = kExceptionMessageFailure ∧
    (populateWhat ⟨none, .threwOther, none, 0, 0, 0⟩
        (adoptThrowable (mkFreshThrowable .runtimeException none
          none))).1.isMessageExtracted_ = false ∧
    (jniExceptionWhat
          (populateWhat ⟨none, .threwOther, none, 0, 0, 0⟩
            (adoptThrowable (mkFreshThrowable .runtimeException none
              none))).2
          (populateWhat ⟨none, .threwOther, none, 0, 0, 0⟩
            (adoptThrowable (mkFreshThrowable .runtimeException none
              none))).1).2.1.getErrorDescriptionCalls
      = (populateWhat ⟨none, .threwOther, none, 0, 0, 0⟩
          (adoptThrowable (mkFreshThrowable .runtimeException none
            none))).2.getErrorDescriptionCalls + 1 :=
  populateWhat_failure_not_cached _ _ rfl (fun s h => by cases h) rfl

/-- Helper: translating a cause-free thrown value yields a throwable
with no cause: the freshly constructed categories start cause-free, and
an adopted `JniException` keeps its throwable's (empty) causes; the
trace merge touches only the stack. -/
theorem convert_causes_nil
    (symbolize : InstructionPointer → StackTraceElement) (g : GlobalState)
    (currentTrace : List InstructionPointer) (e : CppExcVal) (ptr : ExcPtr)
    (h : adoptedCauseFree e = true) :
    (convertCppExceptionToJavaException symbolize g currentTrace e ptr).causes
      = [] := by
  cases e with
  | jniExc thr =>
      have hc : thr.causes = [] := of_decide_eq_true h
      simpa [convertCppExceptionToJavaException,
        addCppStacktraceToJavaException, setStackTrace, convertKernel,
        firstMatch, handlerMatches, applyHandler] using hc
  | foreign t => cases t <;> rfl
  | iosFailure w c => rfl
  | invalidArgument w => rfl
  | badAlloc w => rfl
  | outOfRange w => rfl
  | systemError w c => rfl
  | runtimeError w => rfl
  | otherStd w => rfl
  | rawString s => rfl

/-- Helper: running the translation loop over an innermost-first
remainder `l`, starting from an already-translated `previous = t`,
succeeds when every adopted throwable in `l` is cause-free, and the
result's cell list is the translations of `l` (outermost-first, i.e.
`l` reversed) prepended to `t`'s cells. -/
theorem translateLoop_cells
    (symbolize : InstructionPointer → StackTraceElement) (g : GlobalState)
    (currentTrace : List InstructionPointer) (l : NativeChain) :
    ∀ t : JThrowable, (∀ p ∈ l, adoptedCauseFree p.1 = true) →
      ∃ t', translateLoop symbolize g currentTrace l (some t) = .ok (some t')
        ∧ t'.cells
            = l.reverse.map
                (fun p => (convertCppExceptionToJavaException symbolize g
                    currentTrace p.1 p.2).head)
              ++ t.cells := by
  induction l with
  | nil => exact fun t _ => ⟨t, rfl, by simp⟩
  | cons p rest ih =>
      intro t h
      have hp : adoptedCauseFree p.1 = true := h p (List.mem_cons_self p rest)
      have hc := convert_causes_nil symbolize g currentTrace p.1 p.2 hp
      have hic : initCause (convertCppExceptionToJavaException symbolize g
            currentTrace p.1 p.2) t
          = .ok ⟨(convertCppExceptionToJavaException symbolize g currentTrace
              p.1 p.2).head, t.cells⟩ := by
        simp [initCause, hc]
      obtain ⟨t', ht', hcells⟩ :=
        ih ⟨(convertCppExceptionToJavaException symbolize g currentTrace p.1
              p.2).head, t.cells⟩
          (fun q hq => h q (List.mem_cons_of_mem p hq))
      refine ⟨t', ?_, ?_⟩
      · simpa [translateLoop, hic] using ht'
      · rw [hcells]
        simp [JThrowable.cells, List.map_append]

/-- C2 counterexample: a native chain of depth 1 whose single exception
is an adopted `JniException` wrapping a Java throwable that already has
a cause translates to a managed chain of length 2 — not exactly N = 1,
and with a cause set. -/
theorem getJavaExceptionForCppException_adopted_cause_cex :
    Except.map (Option.map JThrowable.chainLength)
        (getJavaExceptionForCppException (fun _ => ⟨"", "", "", 0⟩)
          ⟨true, []⟩ []
          [(.jniExc ⟨⟨.otherClass "E", none, none, []⟩,
              [⟨.otherClass "C", none, none, []⟩]⟩, ⟨0, none⟩)])
      = .ok (some 2) ∧ (2 : Nat) ≠ 1 :=
  ⟨rfl, by decide⟩

/-- C2 amended: for every non-empty native chain in which each adopted
(already-managed) exception carries no prior cause,
`getJavaExceptionForCppException` returns a chain of exactly N
translated managed exceptions, translated innermost-first, whose cell
list is exactly the outermost-first translations — so each translated
exception's cause link points to the translation of the next-deeper
native exception, and a chain of depth 1 has no cause set.  (Without
the cause-free proviso, an adopted throwable's pre-existing causes
extend the resulting chain beyond N.) -/
theorem getJavaExceptionForCppException_chain
    (symbolize : InstructionPointer → StackTraceElement) (g : GlobalState)
    (currentTrace : List InstructionPointer) (chain : NativeChain)
    (hne : chain ≠ []) (h : ∀ p ∈ chain, adoptedCauseFree p.1 = true) :
    ∃ t, getJavaExceptionForCppException symbolize g currentTrace chain
        = .ok (some t) ∧
      t.cells = chain.map
        (fun p => (convertCppExceptionToJavaException symbolize g
            currentTrace p.1 p.2).head) ∧
      t.chainLength = chain.length := by
  obtain ⟨p, l, hrev⟩ : ∃ p l, chain.reverse = p :: l := by
    cases hc : chain.reverse with
    | nil =>
        exact absurd (by simpa using congrArg List.reverse hc) hne
    | cons a as => exact ⟨a, as, rfl⟩
  have hchain : chain = l.reverse ++ [p] := by
    have := congrArg List.reverse hrev
    simpa using this
  have hp : adoptedCauseFree p.1 = true := by
    refine h p ?_
    rw [hchain]
    exact List.mem_append_right _ (List.mem_cons_self p [])
  have hl : ∀ q ∈ l, adoptedCauseFree q.1 = true := by
    intro q hq
    refine h q ?_
    rw [hchain]
    exact List.mem_append_left _ (List.mem_reverse.mpr hq)
  obtain ⟨t, ht, hcells⟩ :=
    translateLoop_cells symbolize g currentTrace l
      (convertCppExceptionToJavaException symbolize g currentTrace p.1 p.2)
      hl
  have hpcells : (convertCppExceptionToJavaException symbolize g currentTrace
      p.1 p.2).cells
      = [(convertCppExceptionToJavaException symbolize g currentTrace p.1
          p.2).head] := by
    simp [JThrowable.cells,
      convert_causes_nil symbolize g currentTrace p.1 p.2 hp]
  have hcells' : t.cells = chain.map
      (fun q => (convertCppExceptionToJavaException symbolize g currentTrace
          q.1 q.2).head) := by
    rw [hcells, hpcells, hchain]
    simp
  refine ⟨t, ?_, hcells', ?_⟩
  · rw [getJavaExceptionForCppException]
    show translateLoop symbolize g currentTrace chain.reverse none
        = .ok (some t)
    rw [hrev]
    simpa [translateLoop] using ht
  · show t.cells.length = chain.length
    rw [hcells']
    simp

/-- C2 witness: a depth-2 chain (a runtime failure nesting an
invalid-argument failure) translates to exactly two linked managed
exceptions, innermost-first: the outer cell is the runtime-kind
translation, its cause cell the illegal-argument translation. -/
theorem getJavaExceptionForCppException_chain_witness :
    ∃ t, getJavaExceptionForCppException (fun _ => ⟨"", "", "", 0⟩)
        ⟨true, []⟩ []
        [(.runtimeError "outer", ⟨1, none⟩),
          (.invalidArgument "inner", ⟨2, none⟩)]
      = .ok (some t) ∧
      t.cells = [(.runtimeError "outer", (⟨1, none⟩ : ExcPtr)),
          ((.invalidArgument "inner" : CppExcVal), (⟨2, none⟩ : ExcPtr))].map
        (fun p => (convertCppExceptionToJavaException (fun _ => ⟨"", "", "",
            0⟩) ⟨true, []⟩ [] p.1 p.2).head) ∧
      t.chainLength = 2 :=
  getJavaExceptionForCppException_chain (fun _ => ⟨"", "", "", 0⟩)
    ⟨true, []⟩ []
    [(.runtimeError "outer", ⟨1, none⟩), (.invalidArgument "inner", ⟨2, none⟩)]
    (by simp) (by decide)

end Fbjni
